import Mathlib

/-!
Shallow embedding of the browser-side helpers in src/js/framework.js
(and its duplicate fragment src/unnamed/part_000): the gradient fade-out
helper, the navbar scroll threshold handling, the dark-mode controller,
the unsaved-changes tracker, and the searchable datalist widget.

DOM state relevant to each helper is modelled as an explicit Lean
structure; each event handler or API method becomes a state-transition
function. The source file framework.js is truncated inside initDatalist
(it breaks off at line 358) and the unsaved-changes tracker is absent,
so those missing operations are modelled from the spec, each marked with
a doc comment starting "Modelled from the spec:".
-/

set_option autoImplicit false

namespace VibeUI

/-! ## easeOutGradient (framework.js lines 38-74) -/

/-- The class state of the element handed to easeOutGradient: whether it
carries the "gradient" class and the "gradient-out" class. -/
structure Elem where
  hasGradient : Bool
  hasGradientOut : Bool
deriving DecidableEq, Repr

/-- The one-shot completion state created by easeOutGradient: the element,
whether the transitionend listener is currently registered, and how many
times resolve has been invoked on the promise. -/
structure GradPromise where
  elem : Elem
  listenerAttached : Bool
  resolveCount : Nat
deriving DecidableEq, Repr

/-- framework.js lines 38-74: if the element lacks the "gradient" class,
resolve immediately and register nothing; otherwise add "gradient-out",
register the transitionend listener and leave the promise pending. -/
def easeOutGradient (e : Elem) : GradPromise :=
  if e.hasGradient then
    { elem := { e with hasGradientOut := true }
      listenerAttached := true
      resolveCount := 0 }
  else
    { elem := e, listenerAttached := false, resolveCount := 1 }

/-- framework.js lines 49-70: the handler fires on a transitionend event;
it acts only when the listener is still registered and the propertyName is
"--gradient-opacity", in which case it removes both classes, detaches
itself and resolves the promise. -/
def handleTransitionEnd (propertyName : String) (g : GradPromise) : GradPromise :=
  if g.listenerAttached && (propertyName == "--gradient-opacity") then
    { elem := { hasGradient := false, hasGradientOut := false }
      listenerAttached := false
      resolveCount := g.resolveCount + 1 }
  else g

/-- Dispatch a sequence of transitionend events (by propertyName) to the
registered handler, in order. -/
def processEvents (g : GradPromise) (evs : List String) : GradPromise :=
  evs.foldl (fun acc p => handleTransitionEnd p acc) g

/-- Whether a transitionend propertyName is the one the handler acts on. -/
def matchesGradientOpacity (p : String) : Bool :=
  p == "--gradient-opacity"

/-! ## initNavbarScroll (framework.js lines 99-180) -/

/-- framework.js line 100: the JavaScript expression
threshold = options.threshold || 10 applied to an absent (none) or
present numeric threshold; 0 is falsy in JavaScript, so the OR replaces
it by the default 10. -/
def navbarThreshold (optThreshold : Option Int) : Int :=
  match optThreshold with
  | none => 10
  | some t => if t = 0 then 10 else t

/-! ## initDarkMode (framework.js lines 208-237) -/

/-- DOM state touched by the dark-mode controller: whether the document
root carries the "dark" class, and the checked state of the bound toggle
checkbox when one was passed to initDarkMode (none when no toggle). -/
structure DarkModeState where
  darkClass : Bool
  toggleChecked : Option Bool
deriving DecidableEq, Repr

/-- framework.js lines 211-216: classList.toggle with a force argument
sets the "dark" class to isDark, and when a toggle checkbox is bound its
checked property is set to isDark as well. -/
def dmSet (s : DarkModeState) (isDark : Bool) : DarkModeState :=
  { darkClass := isDark
    toggleChecked := s.toggleChecked.map (fun _ => isDark) }

/-- framework.js line 226: the initial call set(darkModeQuery.matches)
applies the system color-scheme preference to the page. -/
def initDarkMode (s : DarkModeState) (prefersDark : Bool) : DarkModeState :=
  dmSet s prefersDark

/-- framework.js line 234: toggle is
set(not (documentElement.classList.contains "dark")). -/
def dmToggle (s : DarkModeState) : DarkModeState :=
  dmSet s (!s.darkClass)

/-- framework.js line 235: isDark reads the presence of the "dark" class
on the document root. -/
def dmIsDark (s : DarkModeState) : Bool :=
  s.darkClass

/-! ## Unsaved-changes tracker

The tracker is named by the spec but its code is not under src/
(framework.js is truncated before it); the whole unit is modelled from
the spec sentence "setDirty() then attempting navigation triggers the
browser confirmation path; setClean() suppresses it; destroy() removes
the listener so no further confirmation fires". -/

/-- State of the unsaved-changes tracker: the dirty flag and whether the
beforeunload listener is currently registered. -/
structure UnsavedState where
  dirty : Bool
  listenerAttached : Bool
deriving DecidableEq, Repr

/-- Modelled from the spec: the missing tracker constructor attaches the
beforeunload listener and starts clean. -/
def initUnsavedChanges : UnsavedState :=
  { dirty := false, listenerAttached := true }

/-- Modelled from the spec: the missing setDirty marks unsaved edits. -/
def setDirty (s : UnsavedState) : UnsavedState :=
  { s with dirty := true }

/-- Modelled from the spec: the missing setClean clears the dirty flag. -/
def setClean (s : UnsavedState) : UnsavedState :=
  { s with dirty := false }

/-- Modelled from the spec: the missing destroy detaches the beforeunload
listener; nothing in the tracker API re-attaches it. -/
def destroy (s : UnsavedState) : UnsavedState :=
  { s with listenerAttached := false }

/-- An attempted navigation triggers the browser confirmation path exactly
when the beforeunload listener is still registered and the tracker is
dirty. -/
def navigationConfirms (s : UnsavedState) : Bool :=
  s.listenerAttached && s.dirty

/-- The mutating operations of the tracker API, for reasoning about what
can happen after destroy. -/
inductive UOp where
  | setDirtyOp
  | setCleanOp
  | destroyOp
deriving DecidableEq, Repr

/-- Apply one tracker operation. -/
def applyUOp (s : UnsavedState) (op : UOp) : UnsavedState :=
  match op with
  | UOp.setDirtyOp => setDirty s
  | UOp.setCleanOp => setClean s
  | UOp.destroyOp => destroy s

/-! ## initDatalist (framework.js lines 274-358, truncated) -/

/-- One entry of the option list handed to initDatalist: a value (key)
and a display label. -/
structure DLOption where
  value : String
  label : String
deriving DecidableEq, Repr

/-- State of the datalist widget, matching the closure variables declared
at framework.js lines 282-286 plus the text currently in the search input
and the caller-supplied full option list the closure captures. -/
structure DatalistState where
  options : List DLOption
  query : String
  selectedValue : Option String
  selectedLabel : String
  highlightedIndex : Int
  filteredOptions : List DLOption
  isOpen : Bool
deriving DecidableEq, Repr

/-- framework.js lines 282-286: the widget starts with no selection,
highlightedIndex -1, filteredOptions a copy of the full option list
(the spread [...options]), the panel closed, and an empty input. -/
def initDatalist (options : List DLOption) : DatalistState :=
  { options := options
    query := ""
    selectedValue := none
    selectedLabel := ""
    highlightedIndex := -1
    filteredOptions := options
    isOpen := false }

/-- Whether chars is a contiguous run inside hay, comparing Char by
equality. -/
def charsContain (chars : List Char) (hay : List Char) : Bool :=
  match hay with
  | [] => chars.isEmpty
  | c :: rest => chars.isPrefixOf (c :: rest) || charsContain chars rest

/-- Modelled from the spec: the missing filter predicate,
"case-insensitive substring match of query against label". -/
def labelMatches (query : String) (o : DLOption) : Bool :=
  charsContain query.toLower.toList o.label.toLower.toList

/-- Modelled from the spec: the missing input-event handler, "Filtering:
case-insensitive substring match of query against label, recomputed on
each input event, reduces filteredOptions and resets highlightedIndex
to -1". -/
def handleInput (s : DatalistState) (q : String) : DatalistState :=
  { s with
    query := q
    filteredOptions := s.options.filter (labelMatches q)
    highlightedIndex := -1 }

/-- framework.js lines 342-345: the mouseenter handler of the rendered
option button at position i sets highlightedIndex to i; a button exists
only for indices below filteredOptions.length, so out-of-range events
cannot occur. -/
def handleMouseEnter (s : DatalistState) (i : Nat) : DatalistState :=
  if i < s.filteredOptions.length then
    { s with highlightedIndex := (i : Int) }
  else s

/-- Modelled from the spec: the missing key handlers, "down/up arrow move
highlightedIndex within [0, filteredOptions.length-1] with wraparound or
clamping (policy choice)"; clamping at the last index is the policy
chosen here, and the keys do nothing when no option is shown. -/
def handleArrowDown (s : DatalistState) : DatalistState :=
  if s.filteredOptions.length = 0 then s
  else if s.highlightedIndex + 1 < (s.filteredOptions.length : Int) then
    { s with highlightedIndex := s.highlightedIndex + 1 }
  else
    { s with highlightedIndex := (s.filteredOptions.length : Int) - 1 }

/-- Modelled from the spec: up-arrow counterpart of handleArrowDown,
clamping at index 0. -/
def handleArrowUp (s : DatalistState) : DatalistState :=
  if s.filteredOptions.length = 0 then s
  else if 0 < s.highlightedIndex then
    { s with highlightedIndex := s.highlightedIndex - 1 }
  else
    { s with highlightedIndex := 0 }

/-- Modelled from the spec: the missing selectOption, "Selecting an
option sets selectedValue/selectedLabel, invokes the change callback with
\x7bvalue, label\x7d, and closes the panel". -/
def selectOption (s : DatalistState) (o : DLOption) : DatalistState :=
  { s with
    selectedValue := some o.value
    selectedLabel := o.label
    isOpen := false }

/-- Modelled from the spec: "enter commits the highlighted option"; with
no valid highlight the key does nothing. -/
def handleEnter (s : DatalistState) : DatalistState :=
  if h : 0 ≤ s.highlightedIndex ∧ s.highlightedIndex < (s.filteredOptions.length : Int) then
    selectOption s (s.filteredOptions.get ⟨s.highlightedIndex.toNat, by omega⟩)
  else s

/-- Modelled from the spec: "escape closes the panel without changing
selection". -/
def handleEscape (s : DatalistState) : DatalistState :=
  { s with isOpen := false }

/-- Modelled from the spec: the missing setValue(key), "selects matching
option or clears if not found"; the first option whose value equals the
key is selected. -/
def setValue (s : DatalistState) (k : String) : DatalistState :=
  match s.options.find? (fun o => o.value == k) with
  | some o =>
    { s with selectedValue := some o.value, selectedLabel := o.label }
  | none =>
    { s with selectedValue := none, selectedLabel := "", query := "" }

/-- Modelled from the spec: the missing getValue, "returns current key or
null". -/
def getValue (s : DatalistState) : Option String :=
  s.selectedValue

/-- Modelled from the spec: the missing clear, "resets selection and
query". -/
def clear (s : DatalistState) : DatalistState :=
  { s with selectedValue := none, selectedLabel := "", query := "" }

/-- Modelled from the spec: the missing open, "show the option panel". -/
def openPanel (s : DatalistState) : DatalistState :=
  { s with isOpen := true }

/-- Modelled from the spec: the missing close, "hide the option panel". -/
def closePanel (s : DatalistState) : DatalistState :=
  { s with isOpen := false }

/-- Every operation that can change the widget state: user input events,
mouse, keyboard, and the public API. -/
inductive DLOp where
  | inputEvent (q : String)
  | mouseEnter (i : Nat)
  | arrowDown
  | arrowUp
  | enterKey
  | escapeKey
  | setValueOp (k : String)
  | clearOp
  | openOp
  | closeOp
deriving DecidableEq, Repr

/-- Dispatch one widget operation to its handler. -/
def applyOp (s : DatalistState) (op : DLOp) : DatalistState :=
  match op with
  | DLOp.inputEvent q => handleInput s q
  | DLOp.mouseEnter i => handleMouseEnter s i
  | DLOp.arrowDown => handleArrowDown s
  | DLOp.arrowUp => handleArrowUp s
  | DLOp.enterKey => handleEnter s
  | DLOp.escapeKey => handleEscape s
  | DLOp.setValueOp k => setValue s k
  | DLOp.clearOp => clear s
  | DLOp.openOp => openPanel s
  | DLOp.closeOp => closePanel s

/-- The states the widget can reach: the freshly constructed state for
any option list, closed under all operations. -/
inductive DLReachable : DatalistState → Prop where
  | init (options : List DLOption) : DLReachable (initDatalist options)
  | step (s : DatalistState) (op : DLOp) :
      DLReachable s → DLReachable (applyOp s op)

/-- The highlight invariant: highlightedIndex is -1 or a valid index into
filteredOptions. -/
def hlInv (s : DatalistState) : Prop :=
  s.highlightedIndex = -1 ∨
    (0 ≤ s.highlightedIndex ∧ s.highlightedIndex < (s.filteredOptions.length : Int))

/-! ## Lemmas about easeOutGradient -/

/-- Once the listener is detached, transitionend events change nothing. -/
theorem processEvents_not_attached (g : VibeUI.GradPromise)
    (h : g.listenerAttached = false) (evs : List String) :
    VibeUI.processEvents g evs = g := by
  induction evs with
  | nil => rfl
  | cons p rest ih =>
    have hstep : VibeUI.handleTransitionEnd p g = g := by
      unfold VibeUI.handleTransitionEnd
      simp [h]
    show VibeUI.processEvents (VibeUI.handleTransitionEnd p g) rest = g
    rw [hstep, ih]

/-- With the listener attached, processing a sequence of events resolves
on the first matching propertyName, removing both classes and detaching
the listener; with no matching event nothing changes. -/
theorem processEvents_attached (evs : List String) :
    ∀ (e : VibeUI.Elem) (n : Nat),
      VibeUI.processEvents ⟨e, true, n⟩ evs =
        if evs.any VibeUI.matchesGradientOpacity then
          ⟨⟨false, false⟩, false, n + 1⟩
        else ⟨e, true, n⟩ := by
  induction evs with
  | nil => intro e n; rfl
  | cons p rest ih =>
    intro e n
    show VibeUI.processEvents (VibeUI.handleTransitionEnd p ⟨e, true, n⟩) rest = _
    by_cases hp : p = "--gradient-opacity"
    · have hstep : VibeUI.handleTransitionEnd p ⟨e, true, n⟩ =
          ⟨⟨false, false⟩, false, n + 1⟩ := by
        unfold VibeUI.handleTransitionEnd
        simp [hp]
      rw [hstep, processEvents_not_attached _ rfl]
      have hany : (p :: rest).any VibeUI.matchesGradientOpacity = true := by
        simp [VibeUI.matchesGradientOpacity, hp]
      rw [hany]
      rfl
    · have hstep : VibeUI.handleTransitionEnd p ⟨e, true, n⟩ = ⟨e, true, n⟩ := by
        unfold VibeUI.handleTransitionEnd
        simp [hp]
      rw [hstep, ih]
      have hany : (p :: rest).any VibeUI.matchesGradientOpacity =
          rest.any VibeUI.matchesGradientOpacity := by
        simp [VibeUI.matchesGradientOpacity, hp]
      rw [hany]

/-- Claim C4: for every element and every sequence of transitionend
events, the promise returned by easeOutGradient resolves exactly once
when the element lacks the "gradient" class (immediately, no listener
registered), resolves exactly once as soon as the events contain a
propertyName "--gradient-opacity" (at which point both classes are
removed and the listener is detached), and otherwise never resolves while
the listener stays registered. -/
theorem easeOutGradient_resolution (e : VibeUI.Elem) (evs : List String) :
    (VibeUI.processEvents (VibeUI.easeOutGradient e) evs).resolveCount
      = (if e.hasGradient then
          (if evs.any VibeUI.matchesGradientOpacity then 1 else 0) else 1)
    ∧ (VibeUI.processEvents (VibeUI.easeOutGradient e) evs).listenerAttached
      = (e.hasGradient && !(evs.any VibeUI.matchesGradientOpacity))
    ∧ (VibeUI.processEvents (VibeUI.easeOutGradient e) evs).elem.hasGradient
      = (e.hasGradient && !(evs.any VibeUI.matchesGradientOpacity))
    ∧ (VibeUI.processEvents (VibeUI.easeOutGradient e) evs).elem.hasGradientOut
      = (if e.hasGradient then !(evs.any VibeUI.matchesGradientOpacity)
          else e.hasGradientOut) := by
  cases heg : e.hasGradient with
  | false =>
    have hinit : VibeUI.easeOutGradient e = ⟨e, false, 1⟩ := by
      unfold VibeUI.easeOutGradient
      simp [heg]
    rw [hinit, processEvents_not_attached ⟨e, false, 1⟩ rfl]
    simp [heg]
  | true =>
    have hinit : VibeUI.easeOutGradient e =
        ⟨⟨true, true⟩, true, 0⟩ := by
      unfold VibeUI.easeOutGradient
      cases e with
      | mk g o => simp at heg; simp [heg]
    rw [hinit, processEvents_attached]
    cases hany : evs.any VibeUI.matchesGradientOpacity <;> simp [heg, hany]

/-! ## Lemmas about initNavbarScroll -/

/-- Claim C9: options.threshold = 0 yields the default effective
threshold 10, the same as omitting the option, and no configuration
yields an effective threshold of zero. -/
theorem navbarThreshold_zero_defaults :
    VibeUI.navbarThreshold (some 0) = 10
    ∧ VibeUI.navbarThreshold (some 0) = VibeUI.navbarThreshold none
    ∧ ∀ x : Option Int, VibeUI.navbarThreshold x ≠ 0 := by
  refine ⟨rfl, rfl, ?_⟩
  intro x
  match x with
  | none => decide
  | some t =>
    unfold VibeUI.navbarThreshold
    by_cases ht : t = 0 <;> simp [ht]

/-- Witness for C9 at the concrete configuration threshold = 5. -/
theorem navbarThreshold_zero_defaults_witness :
    VibeUI.navbarThreshold (some 5) ≠ 0 :=
  navbarThreshold_zero_defaults.2.2 (some 5)

/-! ## Lemmas about initDarkMode -/

/-- Claim C7: initializing with system preference dark sets the dark
class; toggle always flips the dark class; and when a checkbox is bound,
toggle updates its checked property to the new dark state. -/
theorem initDarkMode_toggle_spec :
    (∀ s : VibeUI.DarkModeState, (VibeUI.initDarkMode s true).darkClass = true)
    ∧ (∀ s : VibeUI.DarkModeState, (VibeUI.dmToggle s).darkClass = !s.darkClass)
    ∧ (∀ (s : VibeUI.DarkModeState) (c : Bool), s.toggleChecked = some c →
        (VibeUI.dmToggle s).toggleChecked = some (VibeUI.dmToggle s).darkClass) := by
  refine ⟨fun s => rfl, fun s => rfl, ?_⟩
  intro s c hc
  simp [VibeUI.dmToggle, VibeUI.dmSet, hc]

/-- Witness for C7 at a concrete state with a bound checkbox. -/
theorem initDarkMode_toggle_spec_witness :
    (VibeUI.dmToggle ⟨true, some true⟩).toggleChecked
      = some (VibeUI.dmToggle (⟨true, some true⟩ : VibeUI.DarkModeState)).darkClass :=
  initDarkMode_toggle_spec.2.2 ⟨true, some true⟩ true rfl

/-- Claim C10: isDark reads exactly the dark class, set b makes isDark
return b, and toggling twice restores the original dark state. -/
theorem darkMode_algebra :
    (∀ s : VibeUI.DarkModeState, VibeUI.dmIsDark s = s.darkClass)
    ∧ (∀ (s : VibeUI.DarkModeState) (b : Bool), VibeUI.dmIsDark (VibeUI.dmSet s b) = b)
    ∧ (∀ s : VibeUI.DarkModeState,
        VibeUI.dmIsDark (VibeUI.dmToggle (VibeUI.dmToggle s)) = VibeUI.dmIsDark s) := by
  refine ⟨fun s => rfl, fun s b => rfl, fun s => ?_⟩
  simp [VibeUI.dmIsDark, VibeUI.dmToggle, VibeUI.dmSet]

/-! ## Lemmas about the unsaved-changes tracker -/

/-- No tracker operation re-attaches the beforeunload listener. -/
theorem applyUOp_keeps_detached (s : VibeUI.UnsavedState)
    (h : s.listenerAttached = false) (op : VibeUI.UOp) :
    (VibeUI.applyUOp s op).listenerAttached = false := by
  cases op <;>
    simp [VibeUI.applyUOp, VibeUI.setDirty, VibeUI.setClean, VibeUI.destroy, h]

/-- After the listener is detached it stays detached under every further
sequence of tracker operations. -/
theorem foldl_keeps_detached (ops : List VibeUI.UOp) :
    ∀ s : VibeUI.UnsavedState, s.listenerAttached = false →
      (List.foldl VibeUI.applyUOp s ops).listenerAttached = false := by
  induction ops with
  | nil => intro s h; exact h
  | cons op rest ih =>
    intro s h
    exact ih (VibeUI.applyUOp s op) (applyUOp_keeps_detached s h op)

/-- Claim C8: after setDirty an attempted navigation triggers the browser
confirmation path (while the listener is attached); after setClean it
does not; and after destroy the listener is removed and no later sequence
of tracker operations ever makes navigation trigger a confirmation
again. -/
theorem unsavedChanges_spec :
    (∀ s : VibeUI.UnsavedState, s.listenerAttached = true →
      VibeUI.navigationConfirms (VibeUI.setDirty s) = true)
    ∧ (∀ s : VibeUI.UnsavedState,
        VibeUI.navigationConfirms (VibeUI.setClean s) = false)
    ∧ (∀ (s : VibeUI.UnsavedState) (ops : List VibeUI.UOp),
        (List.foldl VibeUI.applyUOp (VibeUI.destroy s) ops).listenerAttached = false
        ∧ VibeUI.navigationConfirms
            (List.foldl VibeUI.applyUOp (VibeUI.destroy s) ops) = false) := by
  refine ⟨?_, ?_, ?_⟩
  · intro s h
    simp [VibeUI.navigationConfirms, VibeUI.setDirty, h]
  · intro s
    simp [VibeUI.navigationConfirms, VibeUI.setClean]
  · intro s ops
    have hdet : (List.foldl VibeUI.applyUOp (VibeUI.destroy s) ops).listenerAttached
        = false :=
      foldl_keeps_detached ops (VibeUI.destroy s) rfl
    exact ⟨hdet, by simp [VibeUI.navigationConfirms, hdet]⟩

/-- Witness for C8 starting at the freshly constructed tracker. -/
theorem unsavedChanges_spec_witness :
    VibeUI.navigationConfirms (VibeUI.setDirty VibeUI.initUnsavedChanges) = true :=
  unsavedChanges_spec.1 VibeUI.initUnsavedChanges rfl

/-! ## Lemmas about the datalist widget -/

/-- Claim C2: after an input event with query q, filteredOptions is a
sublist (subsequence) of the full option list, its members are exactly
the options whose label case-insensitively contains q, and
highlightedIndex is reset to -1. -/
theorem handleInput_filter_spec (s : VibeUI.DatalistState) (q : String) :
    List.Sublist (VibeUI.handleInput s q).filteredOptions s.options
    ∧ (∀ o : VibeUI.DLOption,
        o ∈ (VibeUI.handleInput s q).filteredOptions ↔
          o ∈ s.options ∧ VibeUI.labelMatches q o = true)
    ∧ (VibeUI.handleInput s q).highlightedIndex = -1 := by
  refine ⟨?_, ?_, rfl⟩
  · show List.Sublist (s.options.filter (VibeUI.labelMatches q)) s.options
    exact List.filter_sublist s.options
  · intro o
    show o ∈ s.options.filter (VibeUI.labelMatches q) ↔ _
    exact List.mem_filter

/-- Claim C5: clear always yields a null getValue and an empty query. -/
theorem clear_spec (s : VibeUI.DatalistState) :
    VibeUI.getValue (VibeUI.clear s) = none ∧ (VibeUI.clear s).query = "" :=
  ⟨rfl, rfl⟩

/-- Claim C6: construction stores the caller's option list unchanged and
no widget operation ever modifies the stored full option list; filtering
recomputes filteredOptions from it. -/
theorem options_never_mutated :
    (∀ opts : List VibeUI.DLOption, (VibeUI.initDatalist opts).options = opts)
    ∧ (∀ (s : VibeUI.DatalistState) (op : VibeUI.DLOp),
        (VibeUI.applyOp s op).options = s.options)
    ∧ (∀ (s : VibeUI.DatalistState) (q : String),
        (VibeUI.handleInput s q).filteredOptions
          = s.options.filter (VibeUI.labelMatches q)) := by
  refine ⟨fun opts => rfl, ?_, fun s q => rfl⟩
  intro s op
  cases op with
  | inputEvent q => rfl
  | mouseEnter i =>
    show (VibeUI.handleMouseEnter s i).options = s.options
    unfold VibeUI.handleMouseEnter
    split <;> rfl
  | arrowDown =>
    show (VibeUI.handleArrowDown s).options = s.options
    unfold VibeUI.handleArrowDown
    split
    · rfl
    · split <;> rfl
  | arrowUp =>
    show (VibeUI.handleArrowUp s).options = s.options
    unfold VibeUI.handleArrowUp
    split
    · rfl
    · split <;> rfl
  | enterKey =>
    show (VibeUI.handleEnter s).options = s.options
    unfold VibeUI.handleEnter
    split <;> rfl
  | escapeKey => rfl
  | setValueOp k =>
    show (VibeUI.setValue s k).options = s.options
    unfold VibeUI.setValue
    split <;> rfl
  | clearOp => rfl
  | openOp => rfl
  | closeOp => rfl

/-- Claim C1: setValue k followed by getValue returns k exactly when k is
the value of some entry of the full option list; otherwise getValue
returns none and the selection is cleared (selected label emptied). -/
theorem setValue_getValue_spec (s : VibeUI.DatalistState) (k : String) :
    (VibeUI.getValue (VibeUI.setValue s k) = some k ↔
      k ∈ s.options.map VibeUI.DLOption.value)
    ∧ (k ∉ s.options.map VibeUI.DLOption.value →
        VibeUI.getValue (VibeUI.setValue s k) = none
        ∧ (VibeUI.setValue s k).selectedLabel = "") := by
  cases hfind : s.options.find? (fun o => o.value == k) with
  | none =>
    have hnone : ∀ o ∈ s.options, o.value ≠ k := by
      intro o ho
      have := List.find?_eq_none.mp hfind o ho
      simpa using this
    constructor
    · constructor
      · intro hval
        exfalso
        have : VibeUI.getValue (VibeUI.setValue s k) = none := by
          unfold VibeUI.getValue VibeUI.setValue
          rw [hfind]
        rw [this] at hval
        exact Option.noConfusion hval
      · intro hmem
        rcases List.mem_map.mp hmem with ⟨o, ho, hov⟩
        exact absurd hov (hnone o ho)
    · intro _
      constructor
      · unfold VibeUI.getValue VibeUI.setValue
        rw [hfind]
      · unfold VibeUI.setValue
        rw [hfind]
  | some o =>
    have hov : o.value = k := by
      have := List.find?_some hfind
      simpa using this
    have homem : o ∈ s.options := List.mem_of_find?_eq_some hfind
    have hmem : k ∈ s.options.map VibeUI.DLOption.value :=
      List.mem_map.mpr ⟨o, homem, hov⟩
    constructor
    · constructor
      · intro _; exact hmem
      · intro _
        unfold VibeUI.getValue VibeUI.setValue
        rw [hfind]
        simp [hov]
    · intro hnot
      exact absurd hmem hnot

/-- Witness for C1: on the option list [(apple, Apple)], setting the
absent key pear leaves getValue none and the selection cleared. -/
theorem setValue_getValue_spec_witness :
    VibeUI.getValue (VibeUI.setValue (VibeUI.initDatalist [⟨"apple", "Apple"⟩]) "pear")
      = none
    ∧ (VibeUI.setValue (VibeUI.initDatalist [⟨"apple", "Apple"⟩]) "pear").selectedLabel
      = "" :=
  (setValue_getValue_spec (VibeUI.initDatalist [⟨"apple", "Apple"⟩]) "pear").2
    (by decide)

/-- Every single widget operation preserves the highlight invariant. -/
theorem hlInv_applyOp (s : VibeUI.DatalistState) (op : VibeUI.DLOp)
    (h : VibeUI.hlInv s) : VibeUI.hlInv (VibeUI.applyOp s op) := by
  cases op with
  | inputEvent q =>
    exact Or.inl rfl
  | mouseEnter i =>
    show VibeUI.hlInv (VibeUI.handleMouseEnter s i)
    unfold VibeUI.handleMouseEnter
    split
    · rename_i hi
      right
      constructor
      · exact Int.ofNat_nonneg i
      · show (i : Int) < (s.filteredOptions.length : Int)
        exact_mod_cast hi
    · exact h
  | arrowDown =>
    show VibeUI.hlInv (VibeUI.handleArrowDown s)
    unfold VibeUI.hlInv at h
    unfold VibeUI.handleArrowDown VibeUI.hlInv
    split
    · exact h
    · rename_i hlen
      have hlen0 : s.filteredOptions.length ≠ 0 := hlen
      split <;> dsimp only <;> omega
  | arrowUp =>
    show VibeUI.hlInv (VibeUI.handleArrowUp s)
    unfold VibeUI.hlInv at h
    unfold VibeUI.handleArrowUp VibeUI.hlInv
    split
    · exact h
    · rename_i hlen
      have hlen0 : s.filteredOptions.length ≠ 0 := hlen
      split <;> dsimp only <;> omega
  | enterKey =>
    show VibeUI.hlInv (VibeUI.handleEnter s)
    unfold VibeUI.handleEnter
    split
    · exact h
    · exact h
  | escapeKey => exact h
  | setValueOp k =>
    show VibeUI.hlInv (VibeUI.setValue s k)
    unfold VibeUI.setValue
    split <;> exact h
  | clearOp => exact h
  | openOp => exact h
  | closeOp => exact h

/-- Claim C3: in every reachable state of the datalist widget,
highlightedIndex is -1 or a valid index into filteredOptions. -/
theorem highlightedIndex_invariant (s : VibeUI.DatalistState)
    (h : VibeUI.DLReachable s) : VibeUI.hlInv s := by
  induction h with
  | init options => exact Or.inl rfl
  | step s op _ ih => exact hlInv_applyOp s op ih

/-- Witness for C3 at the freshly constructed widget over one option. -/
theorem highlightedIndex_invariant_witness :
    VibeUI.hlInv (VibeUI.initDatalist [⟨"apple", "Apple"⟩]) :=
  highlightedIndex_invariant (VibeUI.initDatalist [⟨"apple", "Apple"⟩])
    (VibeUI.DLReachable.init [⟨"apple", "Apple"⟩])

end VibeUI
